import Mathlib

/-!
# Verification of the MCP JSON-RPC tool-dispatch core

A shallow embedding of the JSON-RPC dispatch loop shared by the example
servers of this repository (`src/examples/example_01_hello_world.rs`,
`src/examples/example_02_calculator.rs`), together with proofs of the
spec's testable properties about it.

Modelling conventions:
* `serde_json::Value` is embedded as the inductive `MCP.Json`; JSON numbers
  are carried as rationals (the examples only compare numbers to zero and
  add/subtract/multiply/divide them, and no verified property depends on
  binary floating-point rounding or on textual float formatting).
* Rust `Result<T, String>` becomes `Except String T`.
* `serde_json` object member access (`Value::get`) is `Json.getField`;
  objects are association lists looked up by first match, which agrees with
  member access on the object literals the examples construct (no duplicate
  keys occur).
* `serde_json::from_value::<T>` for the two derived request structs is spelled
  out field by field (`parseGreetingRequest`, `parseCalculatorRequest`),
  following serde's derived semantics: the value must be an object, each
  struct field must be present with the right type, unknown fields are
  ignored.  The precise wording of serde's error strings is abstracted; no
  verified property inspects those strings.
* The async stdin/stdout transport loop of `main` becomes the pure function
  `runLoop` over the list of input lines of a session, returning the list of
  responses written to stdout and the list of diagnostics written to stderr.
  It is parameterised by the JSON line parser (`serde_json::from_str`, an
  external library treated as a black box) and the server's message handler.
-/

set_option autoImplicit false

namespace MCP

/-- Embedding of `serde_json::Value`: null, booleans, numbers (as `ℚ`),
strings, arrays and objects (association lists in insertion order). -/
inductive Json where
  | nul : Json
  | bool (b : Bool) : Json
  | num (q : ℚ) : Json
  | str (s : String) : Json
  | arr (elems : List Json) : Json
  | obj (fields : List (String × Json)) : Json

namespace Json

/-- Embedding of `Value::get(key)` for a string key: member lookup on objects, `None` on
every other variant. -/
def getField : Json → String → Option Json
  | .obj fields, key => fields.lookup key
  | _, _ => none

/-- Embedding of `Value::as_str()`. -/
def asStr : Json → Option String
  | .str s => some s
  | _ => none

/-- The empty JSON object `Value::Object(serde_json::Map::new())`. -/
def emptyObj : Json := .obj []

/-- A JSON string literal with the common escapes.  Stands for serde's string
serialisation; the full control-character escape table is abstracted (no
verified property inspects serialised text). -/
def renderLit (s : String) : String :=
  "\"" ++ String.join (s.data.map fun c =>
    if c = '"' then "\\\""
    else if c = '\\' then "\\\\"
    else if c = '\n' then "\\n"
    else if c = '\t' then "\\t"
    else if c = '\r' then "\\r"
    else String.singleton c) ++ "\""

/-- Textual form of a JSON number.  serde prints `f64` values by the shortest
round-tripping decimal; here integers print exactly and other rationals print
as fractions, an abstraction no verified property depends on. -/
def renderNum (q : ℚ) : String :=
  if q.den = 1 then toString q.num else toString q

mutual

/-- Embedding of `serde_json::to_string` on a `Value` (compact form, total). -/
def render : Json → String
  | .nul => "null"
  | .bool b => if b then "true" else "false"
  | .num q => renderNum q
  | .str s => renderLit s
  | .arr elems => "[" ++ renderSeq elems ++ "]"
  | .obj fields => "\x7b" ++ renderFields fields ++ "\x7d"

/-- Comma-separated rendering of array elements. -/
def renderSeq : List Json → String
  | [] => ""
  | [j] => render j
  | j :: rest => render j ++ "," ++ renderSeq rest

/-- Comma-separated rendering of object members. -/
def renderFields : List (String × Json) → String
  | [] => ""
  | [(k, v)] => renderLit k ++ ":" ++ render v
  | (k, v) :: rest => renderLit k ++ ":" ++ render v ++ "," ++ renderFields rest

end

end Json

/-- Embedding of the `Tool` metadata struct shared by the examples
(`name`, `description`, `input_schema`). -/
structure Tool where
  name : String
  description : String
  input_schema : Json

/-- Serialisation of a `Tool` by its derived `Serialize` instance: an object
with the struct's fields in declaration order. -/
def Tool.toJson (t : Tool) : Json :=
  .obj [("name", .str t.name),
        ("description", .str t.description),
        ("input_schema", t.input_schema)]

namespace HelloWorldServer

/-! Embedding of `src/examples/example_01_hello_world.rs`.  The server struct
carries no state, so its methods become plain functions. -/

/-- The `GreetingRequest` struct. -/
structure GreetingRequest where
  name : String

/-- Embedding of `serde_json::from_value::<GreetingRequest>`: the value must be an object
whose `name` member is a string; unknown members are ignored (serde default).
serde's error wording is abstracted. -/
def parseGreetingRequest : Json → Except String GreetingRequest
  | .obj fields =>
    match fields.lookup "name" with
    | some (.str s) => .ok ⟨s⟩
    | some _ => .error "invalid type for field name"
    | none => .error "missing field name"
  | _ => .error "invalid type: expected an object"

/-- Embedding of `HelloWorldServer::list_tools`. -/
def list_tools : List Tool :=
  [{ name := "greeting",
     description := "Generate a personalized greeting message",
     input_schema := .obj
       [("type", .str "object"),
        ("properties", .obj
          [("name", .obj
            [("type", .str "string"),
             ("description", .str "The name of the person to greet")])]),
        ("required", .arr [.str "name"])] }]

/-- Embedding of `HelloWorldServer::call_tool`.  `serde_json::to_value` on
`GreetingResponse` (a struct of one string) cannot fail, so the response
serialisation is the object it produces. -/
def call_tool (name : String) (arguments : Json) : Except String Json :=
  match name with
  | "greeting" =>
    match parseGreetingRequest arguments with
    | .error e => .error ("Failed to parse arguments: " ++ e)
    | .ok request =>
      .ok (.obj [("message",
        .str ("Hello, " ++ request.name ++ "! Welcome to MCP with Rust!"))])
  | _ => .error ("Unknown tool: " ++ name)

/-- The two `json!` response envelopes of the `tools/call` arm of
`HelloWorldServer::handle_message`: success wraps the tool result as a text
content block, failure becomes a `-32000` error object. -/
def wrapCallOutcome (idv : Json) : Except String Json → Json
  | .ok result =>
    .obj [("jsonrpc", .str "2.0"), ("id", idv),
          ("result", .obj [("content", .arr
            [.obj [("type", .str "text"), ("text", .str (Json.render result))]])])]
  | .error e =>
    .obj [("jsonrpc", .str "2.0"), ("id", idv),
          ("error", .obj [("code", .num (-32000)), ("message", .str e)])]

/-- Embedding of `HelloWorldServer::handle_message`.  `message.get("id")` is an `Option`
that `json!` serialises as `null` when absent, hence `.getD .nul`. -/
def handle_message (message : Json) : Except String Json :=
  match (message.getField "method").bind Json.asStr with
  | none => .error "Missing method"
  | some method =>
    match method with
    | "tools/list" =>
      .ok (.obj [("jsonrpc", .str "2.0"),
                 ("id", (message.getField "id").getD .nul),
                 ("result", .obj [("tools", .arr (list_tools.map Tool.toJson))])])
    | "tools/call" =>
      match message.getField "params" with
      | none => .error "Missing params"
      | some params =>
        match (params.getField "name").bind Json.asStr with
        | none => .error "Missing tool name"
        | some tool_name =>
          let arguments := (params.getField "arguments").getD Json.emptyObj
          .ok (wrapCallOutcome ((message.getField "id").getD .nul)
                (call_tool tool_name arguments))
    | _ => .error ("Unknown method: " ++ method)

end HelloWorldServer

namespace CalculatorServer

/-! Embedding of `src/examples/example_02_calculator.rs`. -/

/-- The `CalculatorRequest` struct.  The `f64` fields are carried as `ℚ`. -/
structure CalculatorRequest where
  operation : String
  a : ℚ
  b : ℚ

/-- The `CalculatorError` enum. -/
inductive CalculatorError where
  | DivisionByZero : CalculatorError
  | UnsupportedOperation (op : String) : CalculatorError

/-- The `Display` impl for `CalculatorError`. -/
def CalculatorError.toString : CalculatorError → String
  | .DivisionByZero => "Division by zero is not allowed"
  | .UnsupportedOperation op => "Unsupported operation: " ++ op

/-- Embedding of `serde_json::from_value::<CalculatorRequest>`: the value must be an
object with a string `operation` and numeric `a` and `b`; unknown members are
ignored (serde default).  serde's error wording is abstracted. -/
def parseCalculatorRequest : Json → Except String CalculatorRequest
  | .obj fields =>
    match fields.lookup "operation", fields.lookup "a", fields.lookup "b" with
    | some (.str op), some (.num a), some (.num b) => .ok ⟨op, a, b⟩
    | _, _, _ => .error "missing or mistyped field of CalculatorRequest"
  | _ => .error "invalid type: expected an object"

/-- Embedding of `CalculatorServer::perform_calculation`.  The `f64` arithmetic is carried
out on `ℚ`; the `b == 0.0` guard becomes `b = 0`. -/
def perform_calculation (request : CalculatorRequest) : Except CalculatorError ℚ :=
  match request.operation with
  | "add" => .ok (request.a + request.b)
  | "subtract" => .ok (request.a - request.b)
  | "multiply" => .ok (request.a * request.b)
  | "divide" =>
    if request.b = 0 then .error .DivisionByZero
    else .ok (request.a / request.b)
  | _ => .error (.UnsupportedOperation request.operation)

/-- Embedding of `CalculatorServer::list_tools`. -/
def list_tools : List Tool :=
  [{ name := "calculator",
     description :=
       "Perform basic arithmetic operations (add, subtract, multiply, divide)",
     input_schema := .obj
       [("type", .str "object"),
        ("properties", .obj
          [("operation", .obj
            [("type", .str "string"),
             ("description", .str "The operation to perform"),
             ("enum", .arr [.str "add", .str "subtract",
                            .str "multiply", .str "divide"])]),
           ("a", .obj [("type", .str "number"),
                       ("description", .str "First number")]),
           ("b", .obj [("type", .str "number"),
                       ("description", .str "Second number")])]),
        ("required", .arr [.str "operation", .str "a", .str "b"])] }]

/-- Embedding of `CalculatorServer::call_tool`.  `operation_performed` is
`format!("{} {} {}", a, operation, b)`; number display goes through
`Json.renderNum`.  `serde_json::to_value` on `CalculatorResponse` cannot
fail, so it is the object it produces. -/
def call_tool (name : String) (arguments : Json) : Except String Json :=
  match name with
  | "calculator" =>
    match parseCalculatorRequest arguments with
    | .error e => .error ("Failed to parse arguments: " ++ e)
    | .ok request =>
      match perform_calculation request with
      | .error e => .error e.toString
      | .ok result =>
        .ok (.obj [("result", .num result),
                   ("operation_performed",
                    .str (Json.renderNum request.a ++ " " ++ request.operation
                          ++ " " ++ Json.renderNum request.b))])
  | _ => .error ("Unknown tool: " ++ name)

/-- The two `json!` response envelopes of the `tools/call` arm of
`CalculatorServer::handle_message` (identical to the hello-world ones). -/
def wrapCallOutcome (idv : Json) : Except String Json → Json
  | .ok result =>
    .obj [("jsonrpc", .str "2.0"), ("id", idv),
          ("result", .obj [("content", .arr
            [.obj [("type", .str "text"), ("text", .str (Json.render result))]])])]
  | .error e =>
    .obj [("jsonrpc", .str "2.0"), ("id", idv),
          ("error", .obj [("code", .num (-32000)), ("message", .str e)])]

/-- Embedding of `CalculatorServer::handle_message` (same dispatch shape as the
hello-world server). -/
def handle_message (message : Json) : Except String Json :=
  match (message.getField "method").bind Json.asStr with
  | none => .error "Missing method"
  | some method =>
    match method with
    | "tools/list" =>
      .ok (.obj [("jsonrpc", .str "2.0"),
                 ("id", (message.getField "id").getD .nul),
                 ("result", .obj [("tools", .arr (list_tools.map Tool.toJson))])])
    | "tools/call" =>
      match message.getField "params" with
      | none => .error "Missing params"
      | some params =>
        match (params.getField "name").bind Json.asStr with
        | none => .error "Missing tool name"
        | some tool_name =>
          let arguments := (params.getField "arguments").getD Json.emptyObj
          .ok (wrapCallOutcome ((message.getField "id").getD .nul)
                (call_tool tool_name arguments))
    | _ => .error ("Unknown method: " ++ method)

end CalculatorServer

/-- Rust's `str::trim`: drop leading and trailing whitespace.  (Defined on
the character list so that it reduces inside the kernel.) -/
def rustTrim (s : String) : String :=
  ⟨((s.data.dropWhile Char.isWhitespace).reverse.dropWhile
      Char.isWhitespace).reverse⟩

/-- The message loop of `main` in examples 1 and 2, as a pure function of the
session's input lines (the lines read until EOF).  `parse` stands for
`serde_json::from_str::<Value>` (an external library, treated as a black box
returning the parsed value or an error string) and `handle` is the server's
`handle_message`.  Returns the responses written to stdout (as values;
`serde_json::to_string` on a `Value` is total) and the diagnostics written to
stderr, in order.  Empty or whitespace-only lines are skipped, a line that
fails to parse is logged and skipped, an `Err` from the handler is logged and
produces no response. -/
def runLoop (parse : String → Except String Json)
    (handle : Json → Except String Json) : List String → List Json × List String
  | [] => ([], [])
  | line :: rest =>
    let trimmed := rustTrim line
    if trimmed = "" then runLoop parse handle rest
    else
      match parse trimmed with
      | .ok message =>
        match handle message with
        | .ok response =>
          let out := runLoop parse handle rest
          (response :: out.1, out.2)
        | .error e =>
          let out := runLoop parse handle rest
          (out.1, ("Error handling message: " ++ e) :: out.2)
      | .error e =>
        let out := runLoop parse handle rest
        (out.1, ("Failed to parse JSON: " ++ e) :: out.2)

/-- Predicate: `sub` occurs as a contiguous substring of `s`. -/
def containsSub (s sub : String) : Prop :=
  ∃ p q : String, s = p ++ sub ++ q

/-! ## Shared dispatch lemmas -/

/-- The hello-world handler on a `tools/list` request. -/
theorem HelloWorldServer.hello_list_eq (msg : Json)
    (hm : (msg.getField "method").bind Json.asStr = some "tools/list") :
    HelloWorldServer.handle_message msg =
      .ok (.obj [("jsonrpc", .str "2.0"),
                 ("id", (msg.getField "id").getD .nul),
                 ("result", .obj [("tools",
                    .arr (HelloWorldServer.list_tools.map Tool.toJson))])]) := by
  unfold HelloWorldServer.handle_message
  rw [hm]
  rfl

/-- The calculator handler on a `tools/list` request. -/
theorem CalculatorServer.calc_list_eq (msg : Json)
    (hm : (msg.getField "method").bind Json.asStr = some "tools/list") :
    CalculatorServer.handle_message msg =
      .ok (.obj [("jsonrpc", .str "2.0"),
                 ("id", (msg.getField "id").getD .nul),
                 ("result", .obj [("tools",
                    .arr (CalculatorServer.list_tools.map Tool.toJson))])]) := by
  unfold CalculatorServer.handle_message
  rw [hm]
  rfl

/-- The hello-world handler on a well-formed `tools/call` request dispatches
to `call_tool` with the (possibly defaulted) arguments. -/
theorem HelloWorldServer.hello_call_eq (msg params : Json) (name : String)
    (hm : (msg.getField "method").bind Json.asStr = some "tools/call")
    (hp : msg.getField "params" = some params)
    (hn : (params.getField "name").bind Json.asStr = some name) :
    HelloWorldServer.handle_message msg =
      .ok (HelloWorldServer.wrapCallOutcome ((msg.getField "id").getD .nul)
        (HelloWorldServer.call_tool name
          ((params.getField "arguments").getD Json.emptyObj))) := by
  unfold HelloWorldServer.handle_message
  rw [hm, hp]
  simp only [hn]

/-- The calculator handler on a well-formed `tools/call` request dispatches
to `call_tool` with the (possibly defaulted) arguments. -/
theorem CalculatorServer.calc_call_eq (msg params : Json) (name : String)
    (hm : (msg.getField "method").bind Json.asStr = some "tools/call")
    (hp : msg.getField "params" = some params)
    (hn : (params.getField "name").bind Json.asStr = some name) :
    CalculatorServer.handle_message msg =
      .ok (CalculatorServer.wrapCallOutcome ((msg.getField "id").getD .nul)
        (CalculatorServer.call_tool name
          ((params.getField "arguments").getD Json.emptyObj))) := by
  unfold CalculatorServer.handle_message
  rw [hm, hp]
  simp only [hn]

/-! ## Concrete messages used by counterexamples and witnesses -/

/-- The request `{"jsonrpc":"2.0","id":3,"method":"unknown/method"}`. -/
def unknownMethodMsg : Json :=
  .obj [("jsonrpc", .str "2.0"), ("id", .num 3), ("method", .str "unknown/method")]

/-- The value `{"jsonrpc":"2.0","id":7}` — an `id` but no `method`. -/
def noMethodMsg : Json :=
  .obj [("jsonrpc", .str "2.0"), ("id", .num 7)]

/-- The value `{"jsonrpc":"2.0"}` — neither `id` nor `method`. -/
def noMethodNoIdMsg : Json :=
  .obj [("jsonrpc", .str "2.0")]

/-! ## C1 -/

/-- C1, corrected: for a request whose string `method` is neither
`tools/list` nor `tools/call`, both example handlers return the plain
`Err "Unknown method: <method>"` — a local error, not a JSON-RPC `-32601`
error envelope (the transport loop then only logs it, so no response carries
the request's id). -/
theorem claim1_unknown_method_is_err (msg : Json) (m : String)
    (hm : (msg.getField "method").bind Json.asStr = some m)
    (h1 : m ≠ "tools/list") (h2 : m ≠ "tools/call") :
    HelloWorldServer.handle_message msg = .error ("Unknown method: " ++ m) ∧
    CalculatorServer.handle_message msg = .error ("Unknown method: " ++ m) := by
  constructor
  · unfold HelloWorldServer.handle_message
    rw [hm]
    split <;> simp_all
  · unfold CalculatorServer.handle_message
    rw [hm]
    split <;> simp_all

/-- C1 witness: the concrete request `{"jsonrpc":"2.0","id":3,
"method":"unknown/method"}` is answered by `Err` in both servers. -/
theorem claim1_unknown_method_is_err_witness :
    (Json.getField unknownMethodMsg "method").bind Json.asStr = some "unknown/method" ∧
    "unknown/method" ≠ "tools/list" ∧
    "unknown/method" ≠ "tools/call" ∧
    (HelloWorldServer.handle_message unknownMethodMsg =
        .error ("Unknown method: " ++ "unknown/method") ∧
     CalculatorServer.handle_message unknownMethodMsg =
        .error ("Unknown method: " ++ "unknown/method")) :=
  ⟨rfl, by decide, by decide,
   claim1_unknown_method_is_err unknownMethodMsg "unknown/method" rfl
     (by decide) (by decide)⟩

/-- C1 counterexample: on `{"jsonrpc":"2.0","id":3,"method":"unknown/method"}`
neither handler produces any response envelope at all (no `-32601`, no echoed
id): both return the `Err` value `"Unknown method: unknown/method"`. -/
theorem claim1_counterexample :
    HelloWorldServer.handle_message unknownMethodMsg =
      .error "Unknown method: unknown/method" ∧
    (HelloWorldServer.handle_message unknownMethodMsg).isOk = false ∧
    CalculatorServer.handle_message unknownMethodMsg =
      .error "Unknown method: unknown/method" ∧
    (CalculatorServer.handle_message unknownMethodMsg).isOk = false :=
  ⟨rfl, rfl, rfl, rfl⟩

/-! ## C2 -/

/-- C2, corrected: when the incoming value has no string `method` member the
handlers return the plain `Err "Missing method"` whether or not an `id` is
present; no `-32600` envelope is ever produced, and the transport loop
therefore writes no response in either case (it only logs). -/
theorem claim2_missing_method_is_err (msg : Json)
    (hm : (msg.getField "method").bind Json.asStr = none) :
    HelloWorldServer.handle_message msg = .error "Missing method" ∧
    CalculatorServer.handle_message msg = .error "Missing method" := by
  constructor
  · unfold HelloWorldServer.handle_message
    rw [hm]
  · unfold CalculatorServer.handle_message
    rw [hm]

/-- C2 witness: both the id-bearing `{"jsonrpc":"2.0","id":7}` and the id-less
`{"jsonrpc":"2.0"}` are answered by `Err "Missing method"`. -/
theorem claim2_missing_method_is_err_witness :
    (Json.getField noMethodMsg "method").bind Json.asStr = none ∧
    (Json.getField noMethodNoIdMsg "method").bind Json.asStr = none ∧
    (HelloWorldServer.handle_message noMethodMsg = .error "Missing method" ∧
     CalculatorServer.handle_message noMethodMsg = .error "Missing method") ∧
    (HelloWorldServer.handle_message noMethodNoIdMsg = .error "Missing method" ∧
     CalculatorServer.handle_message noMethodNoIdMsg = .error "Missing method") :=
  ⟨rfl, rfl, claim2_missing_method_is_err noMethodMsg rfl,
   claim2_missing_method_is_err noMethodNoIdMsg rfl⟩

/-- C2 counterexample: `{"jsonrpc":"2.0","id":7}` carries an `id`, yet neither
handler produces a `-32600` error response (or any response): both return the
`Err` value `"Missing method"`. -/
theorem claim2_counterexample :
    HelloWorldServer.handle_message noMethodMsg = .error "Missing method" ∧
    (HelloWorldServer.handle_message noMethodMsg).isOk = false ∧
    CalculatorServer.handle_message noMethodMsg = .error "Missing method" ∧
    (CalculatorServer.handle_message noMethodMsg).isOk = false :=
  ⟨rfl, rfl, rfl, rfl⟩

/-! ## C3 -/

/-- C3, confirmed: on every request whose `method` is the string
`tools/list`, whatever its `id` (`null`, a number, a string, or absent), both
handlers return the success envelope whose `result.tools` is exactly the
registry's descriptor list in registration order and whose `id` member is the
request's `id` echoed verbatim, an absent `id` being echoed as `null`. -/
theorem claim3_tools_list_echoes_registry (msg : Json)
    (hm : (msg.getField "method").bind Json.asStr = some "tools/list") :
    HelloWorldServer.handle_message msg =
      .ok (.obj [("jsonrpc", .str "2.0"),
                 ("id", (msg.getField "id").getD .nul),
                 ("result", .obj [("tools",
                    .arr (HelloWorldServer.list_tools.map Tool.toJson))])]) ∧
    CalculatorServer.handle_message msg =
      .ok (.obj [("jsonrpc", .str "2.0"),
                 ("id", (msg.getField "id").getD .nul),
                 ("result", .obj [("tools",
                    .arr (CalculatorServer.list_tools.map Tool.toJson))])]) :=
  ⟨HelloWorldServer.hello_list_eq msg hm, CalculatorServer.calc_list_eq msg hm⟩

/-- C3 witness: concrete `tools/list` requests with `id` equal to `null`,
`0`, the string `"abc"`, and with no `id` member at all, each answered by the
registry list with the id echoed (as `null` when absent). -/
theorem claim3_tools_list_echoes_registry_witness :
    (Json.getField (.obj [("id", .nul), ("method", .str "tools/list")]) "method").bind
        Json.asStr = some "tools/list" ∧
    (HelloWorldServer.handle_message (.obj [("id", .nul), ("method", .str "tools/list")]) =
      .ok (.obj [("jsonrpc", .str "2.0"), ("id", .nul),
                 ("result", .obj [("tools",
                    .arr (HelloWorldServer.list_tools.map Tool.toJson))])]) ∧
     CalculatorServer.handle_message (.obj [("id", .nul), ("method", .str "tools/list")]) =
      .ok (.obj [("jsonrpc", .str "2.0"), ("id", .nul),
                 ("result", .obj [("tools",
                    .arr (CalculatorServer.list_tools.map Tool.toJson))])])) ∧
    (HelloWorldServer.handle_message (.obj [("id", .num 0), ("method", .str "tools/list")]) =
      .ok (.obj [("jsonrpc", .str "2.0"), ("id", .num 0),
                 ("result", .obj [("tools",
                    .arr (HelloWorldServer.list_tools.map Tool.toJson))])]) ∧
     CalculatorServer.handle_message (.obj [("id", .num 0), ("method", .str "tools/list")]) =
      .ok (.obj [("jsonrpc", .str "2.0"), ("id", .num 0),
                 ("result", .obj [("tools",
                    .arr (CalculatorServer.list_tools.map Tool.toJson))])])) ∧
    (HelloWorldServer.handle_message (.obj [("id", .str "abc"), ("method", .str "tools/list")]) =
      .ok (.obj [("jsonrpc", .str "2.0"), ("id", .str "abc"),
                 ("result", .obj [("tools",
                    .arr (HelloWorldServer.list_tools.map Tool.toJson))])]) ∧
     CalculatorServer.handle_message (.obj [("id", .str "abc"), ("method", .str "tools/list")]) =
      .ok (.obj [("jsonrpc", .str "2.0"), ("id", .str "abc"),
                 ("result", .obj [("tools",
                    .arr (CalculatorServer.list_tools.map Tool.toJson))])])) ∧
    (HelloWorldServer.handle_message (.obj [("method", .str "tools/list")]) =
      .ok (.obj [("jsonrpc", .str "2.0"), ("id", .nul),
                 ("result", .obj [("tools",
                    .arr (HelloWorldServer.list_tools.map Tool.toJson))])]) ∧
     CalculatorServer.handle_message (.obj [("method", .str "tools/list")]) =
      .ok (.obj [("jsonrpc", .str "2.0"), ("id", .nul),
                 ("result", .obj [("tools",
                    .arr (CalculatorServer.list_tools.map Tool.toJson))])])) :=
  ⟨rfl,
   claim3_tools_list_echoes_registry (.obj [("id", .nul), ("method", .str "tools/list")]) rfl,
   claim3_tools_list_echoes_registry (.obj [("id", .num 0), ("method", .str "tools/list")]) rfl,
   claim3_tools_list_echoes_registry (.obj [("id", .str "abc"), ("method", .str "tools/list")]) rfl,
   claim3_tools_list_echoes_registry (.obj [("method", .str "tools/list")]) rfl⟩

/-! ## C4 -/

/-- C4, confirmed: a `tools/call` request naming a tool outside the
hello-world registry is answered by an error envelope with code `-32000`
whose message `"Unknown tool: <name>"` contains the tool name. -/
theorem claim4_unknown_tool_error (msg params : Json) (name : String)
    (hm : (msg.getField "method").bind Json.asStr = some "tools/call")
    (hp : msg.getField "params" = some params)
    (hn : (params.getField "name").bind Json.asStr = some name)
    (habs : name ∉ HelloWorldServer.list_tools.map Tool.name) :
    HelloWorldServer.handle_message msg =
      .ok (.obj [("jsonrpc", .str "2.0"),
                 ("id", (msg.getField "id").getD .nul),
                 ("error", .obj [("code", .num (-32000)),
                                 ("message", .str ("Unknown tool: " ++ name))])]) ∧
    containsSub ("Unknown tool: " ++ name) name := by
  have hg : name ≠ "greeting" := by
    simpa [HelloWorldServer.list_tools] using habs
  have hc : HelloWorldServer.call_tool name
      ((params.getField "arguments").getD Json.emptyObj) =
      .error ("Unknown tool: " ++ name) := by
    unfold HelloWorldServer.call_tool
    split <;> simp_all
  refine ⟨?_, "Unknown tool: ", "", by simp⟩
  rw [HelloWorldServer.hello_call_eq msg params name hm hp hn, hc]
  rfl

/-- C4 witness: calling the unregistered tool `"nonexistent"` on the
hello-world server yields the `-32000` envelope naming it. -/
theorem claim4_unknown_tool_error_witness :
    (Json.getField (.obj [("id", .num 4), ("method", .str "tools/call"),
        ("params", .obj [("name", .str "nonexistent")])]) "method").bind Json.asStr =
      some "tools/call" ∧
    "nonexistent" ∉ HelloWorldServer.list_tools.map Tool.name ∧
    (HelloWorldServer.handle_message (.obj [("id", .num 4), ("method", .str "tools/call"),
        ("params", .obj [("name", .str "nonexistent")])]) =
      .ok (.obj [("jsonrpc", .str "2.0"), ("id", .num 4),
                 ("error", .obj [("code", .num (-32000)),
                                 ("message", .str ("Unknown tool: " ++ "nonexistent"))])]) ∧
     containsSub ("Unknown tool: " ++ "nonexistent") "nonexistent") :=
  ⟨rfl, by simp [HelloWorldServer.list_tools],
   claim4_unknown_tool_error
     (.obj [("id", .num 4), ("method", .str "tools/call"),
            ("params", .obj [("name", .str "nonexistent")])])
     (.obj [("name", .str "nonexistent")]) "nonexistent" rfl rfl rfl
     (by simp [HelloWorldServer.list_tools])⟩

/-! ## C5 -/

/-- C5, confirmed: a `tools/call` of the registered `calculator` tool whose
arguments do not deserialise into `CalculatorRequest` (missing member or
wrong type, e.g. `a` given as a string) is answered by an error envelope with
code `-32000`; the handler is a total function, so no panic or exception can
escape — every such request gets the envelope below. -/
theorem claim5_invalid_arguments_error (msg params args : Json) (e : String)
    (hm : (msg.getField "method").bind Json.asStr = some "tools/call")
    (hp : msg.getField "params" = some params)
    (hn : (params.getField "name").bind Json.asStr = some "calculator")
    (ha : (params.getField "arguments").getD Json.emptyObj = args)
    (hbad : CalculatorServer.parseCalculatorRequest args = .error e) :
    CalculatorServer.handle_message msg =
      .ok (.obj [("jsonrpc", .str "2.0"),
                 ("id", (msg.getField "id").getD .nul),
                 ("error", .obj [("code", .num (-32000)),
                                 ("message",
                                  .str ("Failed to parse arguments: " ++ e))])]) := by
  have hc : CalculatorServer.call_tool "calculator" args =
      .error ("Failed to parse arguments: " ++ e) := by
    unfold CalculatorServer.call_tool
    rw [hbad]
    rfl
  rw [CalculatorServer.calc_call_eq msg params "calculator" hm hp hn, ha, hc]
  rfl

/-- C5 witness: the calculator called with `a` as the string `"five"` is
answered by the `-32000` error envelope. -/
theorem claim5_invalid_arguments_error_witness :
    CalculatorServer.parseCalculatorRequest
        (.obj [("operation", .str "add"), ("a", .str "five"), ("b", .num 3)]) =
      .error "missing or mistyped field of CalculatorRequest" ∧
    CalculatorServer.handle_message
        (.obj [("id", .num 9), ("method", .str "tools/call"),
               ("params", .obj [("name", .str "calculator"),
                 ("arguments", .obj [("operation", .str "add"),
                                     ("a", .str "five"), ("b", .num 3)])])]) =
      .ok (.obj [("jsonrpc", .str "2.0"), ("id", .num 9),
                 ("error", .obj [("code", .num (-32000)),
                                 ("message",
                                  .str ("Failed to parse arguments: " ++
                                    "missing or mistyped field of CalculatorRequest"))])]) :=
  ⟨rfl,
   claim5_invalid_arguments_error
     (.obj [("id", .num 9), ("method", .str "tools/call"),
            ("params", .obj [("name", .str "calculator"),
              ("arguments", .obj [("operation", .str "add"),
                                  ("a", .str "five"), ("b", .num 3)])])])
     (.obj [("name", .str "calculator"),
            ("arguments", .obj [("operation", .str "add"),
                                ("a", .str "five"), ("b", .num 3)])])
     (.obj [("operation", .str "add"), ("a", .str "five"), ("b", .num 3)])
     "missing or mistyped field of CalculatorRequest" rfl rfl rfl rfl rfl⟩

/-! ## C6 -/

/-- The spec's concrete division-by-zero request:
`{"jsonrpc":"2.0","id":1,"method":"tools/call","params":{"name":"calculator",
"arguments":{"operation":"divide","a":5,"b":0}}}`. -/
def divideByZeroMsg : Json :=
  .obj [("jsonrpc", .str "2.0"), ("id", .num 1), ("method", .str "tools/call"),
        ("params", .obj [("name", .str "calculator"),
          ("arguments", .obj [("operation", .str "divide"),
                              ("a", .num 5), ("b", .num 0)])])]

/-- C6, confirmed: on the concrete divide-by-zero request the calculator
server answers with an envelope carrying `id` 1 and an error object whose
message `"Division by zero is not allowed"` contains the substring
`"Division by zero"`. -/
theorem claim6_divide_by_zero :
    CalculatorServer.handle_message divideByZeroMsg =
      .ok (.obj [("jsonrpc", .str "2.0"), ("id", .num 1),
                 ("error", .obj [("code", .num (-32000)),
                                 ("message",
                                  .str "Division by zero is not allowed")])]) ∧
    containsSub "Division by zero is not allowed" "Division by zero" :=
  ⟨rfl, "", " is not allowed", rfl⟩

/-! ## C7 -/

/-- C7, confirmed: a `tools/call` request whose `params` has a `name` but no
`arguments` member dispatches with the arguments defaulted to the empty JSON
object — the invoked tool sees `{}` and the envelope layer raises no
missing-params failure. -/
theorem claim7_default_arguments (msg params : Json) (name : String)
    (hm : (msg.getField "method").bind Json.asStr = some "tools/call")
    (hp : msg.getField "params" = some params)
    (hn : (params.getField "name").bind Json.asStr = some name)
    (ha : params.getField "arguments" = none) :
    HelloWorldServer.handle_message msg =
      .ok (HelloWorldServer.wrapCallOutcome ((msg.getField "id").getD .nul)
        (HelloWorldServer.call_tool name Json.emptyObj)) ∧
    CalculatorServer.handle_message msg =
      .ok (CalculatorServer.wrapCallOutcome ((msg.getField "id").getD .nul)
        (CalculatorServer.call_tool name Json.emptyObj)) := by
  constructor
  · rw [HelloWorldServer.hello_call_eq msg params name hm hp hn, ha]
    rfl
  · rw [CalculatorServer.calc_call_eq msg params name hm hp hn, ha]
    rfl

/-- C7 witness: `{"id":5,"method":"tools/call","params":{"name":"greeting"}}`
dispatches to the greeting tool with `{}` as arguments (whose parse then
fails inside the tool, not at the envelope layer). -/
theorem claim7_default_arguments_witness :
    (Json.getField (.obj [("name", .str "greeting")]) "arguments") = none ∧
    (HelloWorldServer.handle_message
        (.obj [("id", .num 5), ("method", .str "tools/call"),
               ("params", .obj [("name", .str "greeting")])]) =
      .ok (HelloWorldServer.wrapCallOutcome (.num 5)
        (HelloWorldServer.call_tool "greeting" Json.emptyObj)) ∧
     CalculatorServer.handle_message
        (.obj [("id", .num 5), ("method", .str "tools/call"),
               ("params", .obj [("name", .str "greeting")])]) =
      .ok (CalculatorServer.wrapCallOutcome (.num 5)
        (CalculatorServer.call_tool "greeting" Json.emptyObj))) :=
  ⟨rfl,
   claim7_default_arguments
     (.obj [("id", .num 5), ("method", .str "tools/call"),
            ("params", .obj [("name", .str "greeting")])])
     (.obj [("name", .str "greeting")]) "greeting" rfl rfl rfl rfl⟩

/-! ## C8 -/

/-- Either branch of the hello-world `tools/call` envelope has a `result`
member and no `error` member, or the reverse. -/
theorem HelloWorldServer.hello_wrap_xor (idv : Json) (out : Except String Json) :
    (((HelloWorldServer.wrapCallOutcome idv out).getField "result").isSome ∧
      (HelloWorldServer.wrapCallOutcome idv out).getField "error" = none) ∨
    ((HelloWorldServer.wrapCallOutcome idv out).getField "result" = none ∧
      ((HelloWorldServer.wrapCallOutcome idv out).getField "error").isSome) := by
  cases out with
  | ok r => exact Or.inl ⟨rfl, rfl⟩
  | error e => exact Or.inr ⟨rfl, rfl⟩

/-- Either branch of the calculator `tools/call` envelope has a `result`
member and no `error` member, or the reverse. -/
theorem CalculatorServer.calc_wrap_xor (idv : Json) (out : Except String Json) :
    (((CalculatorServer.wrapCallOutcome idv out).getField "result").isSome ∧
      (CalculatorServer.wrapCallOutcome idv out).getField "error" = none) ∨
    ((CalculatorServer.wrapCallOutcome idv out).getField "result" = none ∧
      ((CalculatorServer.wrapCallOutcome idv out).getField "error").isSome) := by
  cases out with
  | ok r => exact Or.inl ⟨rfl, rfl⟩
  | error e => exact Or.inr ⟨rfl, rfl⟩

/-- Every `Ok` response of the hello-world handler is either the
`tools/list` envelope or a `tools/call` envelope. -/
theorem HelloWorldServer.hello_response_shape (msg resp : Json)
    (h : HelloWorldServer.handle_message msg = .ok resp) :
    (∃ idv, resp = .obj [("jsonrpc", .str "2.0"), ("id", idv),
        ("result", .obj [("tools",
           .arr (HelloWorldServer.list_tools.map Tool.toJson))])]) ∨
    (∃ idv out, resp = HelloWorldServer.wrapCallOutcome idv out) := by
  unfold HelloWorldServer.handle_message at h
  split at h
  · exact Except.noConfusion h
  · split at h
    · exact Or.inl ⟨_, (Except.ok.inj h).symm⟩
    · split at h
      · exact Except.noConfusion h
      · split at h
        · exact Except.noConfusion h
        · exact Or.inr ⟨_, _, (Except.ok.inj h).symm⟩
    · exact Except.noConfusion h

/-- Every `Ok` response of the calculator handler is either the
`tools/list` envelope or a `tools/call` envelope. -/
theorem CalculatorServer.calc_response_shape (msg resp : Json)
    (h : CalculatorServer.handle_message msg = .ok resp) :
    (∃ idv, resp = .obj [("jsonrpc", .str "2.0"), ("id", idv),
        ("result", .obj [("tools",
           .arr (CalculatorServer.list_tools.map Tool.toJson))])]) ∨
    (∃ idv out, resp = CalculatorServer.wrapCallOutcome idv out) := by
  unfold CalculatorServer.handle_message at h
  split at h
  · exact Except.noConfusion h
  · split at h
    · exact Or.inl ⟨_, (Except.ok.inj h).symm⟩
    · split at h
      · exact Except.noConfusion h
      · split at h
        · exact Except.noConfusion h
        · exact Or.inr ⟨_, _, (Except.ok.inj h).symm⟩
    · exact Except.noConfusion h

/-- C8, confirmed: every response envelope either handler produces has
exactly one of the members `result` and `error` — never both, never
neither. -/
theorem claim8_result_xor_error (msg resp : Json) :
    (HelloWorldServer.handle_message msg = .ok resp →
      ((resp.getField "result").isSome ∧ resp.getField "error" = none) ∨
      (resp.getField "result" = none ∧ (resp.getField "error").isSome)) ∧
    (CalculatorServer.handle_message msg = .ok resp →
      ((resp.getField "result").isSome ∧ resp.getField "error" = none) ∨
      (resp.getField "result" = none ∧ (resp.getField "error").isSome)) := by
  constructor
  · intro h
    rcases HelloWorldServer.hello_response_shape msg resp h with ⟨idv, rfl⟩ | ⟨idv, out, rfl⟩
    · exact Or.inl ⟨rfl, rfl⟩
    · exact HelloWorldServer.hello_wrap_xor idv out
  · intro h
    rcases CalculatorServer.calc_response_shape msg resp h with ⟨idv, rfl⟩ | ⟨idv, out, rfl⟩
    · exact Or.inl ⟨rfl, rfl⟩
    · exact CalculatorServer.calc_wrap_xor idv out

/-- The hello-world server's response to `{"jsonrpc":"2.0","id":2,
"method":"tools/list"}`. -/
def listRespSample : Json :=
  .obj [("jsonrpc", .str "2.0"), ("id", .num 2),
        ("result", .obj [("tools",
           .arr (HelloWorldServer.list_tools.map Tool.toJson))])]

/-- The calculator server's response to the divide-by-zero request. -/
def errRespSample : Json :=
  .obj [("jsonrpc", .str "2.0"), ("id", .num 1),
        ("error", .obj [("code", .num (-32000)),
                        ("message", .str "Division by zero is not allowed")])]

/-- C8 witness: the invariant at the concrete `tools/list` response of the
hello-world server and at the concrete divide-by-zero error response of the
calculator server. -/
theorem claim8_result_xor_error_witness :
    (((listRespSample.getField "result").isSome ∧
        listRespSample.getField "error" = none) ∨
      (listRespSample.getField "result" = none ∧
        (listRespSample.getField "error").isSome)) ∧
    (((errRespSample.getField "result").isSome ∧
        errRespSample.getField "error" = none) ∨
      (errRespSample.getField "result" = none ∧
        (errRespSample.getField "error").isSome)) :=
  ⟨(claim8_result_xor_error
      (.obj [("jsonrpc", .str "2.0"), ("id", .num 2), ("method", .str "tools/list")])
      listRespSample).1 rfl,
   (claim8_result_xor_error divideByZeroMsg errRespSample).2 rfl⟩

/-! ## Transport-loop lemmas -/

/-- A non-blank line that fails to parse adds one diagnostic, produces no
response, and leaves the processing of the remaining lines untouched. -/
theorem runLoop_parse_error (parse : String → Except String Json)
    (handle : Json → Except String Json) (line : String) (rest : List String)
    (e : String) (hne : rustTrim line ≠ "") (hpe : parse (rustTrim line) = .error e) :
    runLoop parse handle (line :: rest) =
      ((runLoop parse handle rest).1,
       ("Failed to parse JSON: " ++ e) :: (runLoop parse handle rest).2) := by
  conv_lhs => rw [runLoop]
  simp only [hpe, if_neg hne]

/-- A non-blank line whose message the handler answers with `Err` adds one
diagnostic, produces no response, and leaves the processing of the remaining
lines untouched. -/
theorem runLoop_handle_error (parse : String → Except String Json)
    (handle : Json → Except String Json) (line : String) (rest : List String)
    (m : Json) (e : String) (hne : rustTrim line ≠ "")
    (hpo : parse (rustTrim line) = .ok m) (hhe : handle m = .error e) :
    runLoop parse handle (line :: rest) =
      ((runLoop parse handle rest).1,
       ("Error handling message: " ++ e) :: (runLoop parse handle rest).2) := by
  conv_lhs => rw [runLoop]
  simp only [hpo, hhe, if_neg hne]

/-- Deleting a non-parsing line from a session leaves the response stream
unchanged. -/
theorem runLoop_outputs_skip (parse : String → Except String Json)
    (handle : Json → Except String Json) (pre post : List String)
    (bad e : String) (hne : rustTrim bad ≠ "") (hpe : parse (rustTrim bad) = .error e) :
    (runLoop parse handle (pre ++ bad :: post)).1 =
      (runLoop parse handle (pre ++ post)).1 := by
  induction pre with
  | nil =>
    simp only [List.nil_append]
    rw [runLoop_parse_error parse handle bad post e hne hpe]
  | cons l pre ih =>
    simp only [List.cons_append]
    conv_lhs => rw [runLoop]
    conv_rhs => rw [runLoop]
    by_cases hl : rustTrim l = ""
    · simp only [if_pos hl]
      exact ih
    · simp only [if_neg hl]
      cases hp : parse (rustTrim l) with
      | error e2 => simp [hp, ih]
      | ok m =>
        cases hh : handle m with
        | ok r => simp [hp, hh, ih]
        | error e2 => simp [hp, hh, ih]

/-! ## C9 -/

/-- C9, confirmed: a line that is not valid JSON is logged to the diagnostic
channel and skipped, and the session continues: the immediate next state
processes the remaining lines exactly as before (first conjunct), and the
whole session's response stream equals that of the session without the
malformed line wherever it sits (second conjunct) — a single bad line never
terminates the session (`runLoop` always consumes every line). -/
theorem claim9_malformed_line_skipped (parse : String → Except String Json)
    (handle : Json → Except String Json) (pre post : List String)
    (bad e : String) (hne : rustTrim bad ≠ "") (hpe : parse (rustTrim bad) = .error e) :
    runLoop parse handle (bad :: post) =
      ((runLoop parse handle post).1,
       ("Failed to parse JSON: " ++ e) :: (runLoop parse handle post).2) ∧
    (runLoop parse handle (pre ++ bad :: post)).1 =
      (runLoop parse handle (pre ++ post)).1 :=
  ⟨runLoop_parse_error parse handle bad post e hne hpe,
   runLoop_outputs_skip parse handle pre post bad e hne hpe⟩

/-- A miniature stand-in for `serde_json::from_str` used by the transport
witnesses: it recognises two fixed lines and rejects everything else. -/
def sampleParse (s : String) : Except String Json :=
  if s = "list" then .ok (.obj [("method", .str "tools/list")])
  else if s = "call" then .ok (.obj [("method", .str "tools/call")])
  else .error "expected value"

/-- C9 witness: in the session `["list", "not json", "list"]` of the
hello-world server the malformed middle line is logged and skipped and the
responses equal those of `["list", "list"]`. -/
theorem claim9_malformed_line_skipped_witness :
    rustTrim "not json" ≠ "" ∧
    sampleParse (rustTrim "not json") = .error "expected value" ∧
    (runLoop sampleParse HelloWorldServer.handle_message ["not json", "list"] =
      ((runLoop sampleParse HelloWorldServer.handle_message ["list"]).1,
       ("Failed to parse JSON: " ++ "expected value") ::
         (runLoop sampleParse HelloWorldServer.handle_message ["list"]).2) ∧
     (runLoop sampleParse HelloWorldServer.handle_message
        (["list"] ++ "not json" :: ["list"])).1 =
      (runLoop sampleParse HelloWorldServer.handle_message (["list"] ++ ["list"])).1) :=
  ⟨by decide, rfl,
   claim9_malformed_line_skipped sampleParse HelloWorldServer.handle_message
     ["list"] ["list"] "not json" "expected value" (by decide) rfl⟩

/-! ## C10 -/

/-- C10, confirmed: a `tools/call` request with no `params`, or whose
`params.name` is absent or not a string, makes `handle_message` return a
plain `Err` string (`"Missing params"` / `"Missing tool name"`) rather than
a JSON-RPC error envelope, and the transport loop writes no response line
for any message the handler answers with `Err` — it only logs the error. -/
theorem claim10_malformed_call_is_err :
    (∀ msg : Json, (msg.getField "method").bind Json.asStr = some "tools/call" →
      msg.getField "params" = none →
      HelloWorldServer.handle_message msg = .error "Missing params" ∧
      CalculatorServer.handle_message msg = .error "Missing params") ∧
    (∀ msg params : Json,
      (msg.getField "method").bind Json.asStr = some "tools/call" →
      msg.getField "params" = some params →
      (params.getField "name").bind Json.asStr = none →
      HelloWorldServer.handle_message msg = .error "Missing tool name" ∧
      CalculatorServer.handle_message msg = .error "Missing tool name") ∧
    (∀ (parse : String → Except String Json)
       (handle : Json → Except String Json) (line : String)
       (rest : List String) (m : Json) (e : String),
      rustTrim line ≠ "" → parse (rustTrim line) = .ok m → handle m = .error e →
      runLoop parse handle (line :: rest) =
        ((runLoop parse handle rest).1,
         ("Error handling message: " ++ e) :: (runLoop parse handle rest).2)) := by
  refine ⟨fun msg hm hp => ⟨?_, ?_⟩, fun msg params hm hp hn => ⟨?_, ?_⟩,
    runLoop_handle_error⟩
  · unfold HelloWorldServer.handle_message
    rw [hm, hp]
    rfl
  · unfold CalculatorServer.handle_message
    rw [hm, hp]
    rfl
  · unfold HelloWorldServer.handle_message
    rw [hm, hp]
    simp only [hn]
  · unfold CalculatorServer.handle_message
    rw [hm, hp]
    simp only [hn]

/-- C10 witness: `{"method":"tools/call"}` (no `params`) and
`{"method":"tools/call","params":{}}` (no `name`) are answered by the
respective `Err` strings, and the session `["call"]` of the hello-world
server writes no response and logs `"Missing params"`. -/
theorem claim10_malformed_call_is_err_witness :
    (Json.getField (.obj [("method", .str "tools/call")]) "params" = none ∧
     (HelloWorldServer.handle_message (.obj [("method", .str "tools/call")]) =
        .error "Missing params" ∧
      CalculatorServer.handle_message (.obj [("method", .str "tools/call")]) =
        .error "Missing params")) ∧
    (HelloWorldServer.handle_message
        (.obj [("method", .str "tools/call"), ("params", .obj [])]) =
      .error "Missing tool name" ∧
     CalculatorServer.handle_message
        (.obj [("method", .str "tools/call"), ("params", .obj [])]) =
      .error "Missing tool name") ∧
    runLoop sampleParse HelloWorldServer.handle_message ["call"] =
      ((runLoop sampleParse HelloWorldServer.handle_message []).1,
       ("Error handling message: " ++ "Missing params") ::
         (runLoop sampleParse HelloWorldServer.handle_message []).2) :=
  ⟨⟨rfl, claim10_malformed_call_is_err.1 (.obj [("method", .str "tools/call")]) rfl rfl⟩,
   claim10_malformed_call_is_err.2.1
     (.obj [("method", .str "tools/call"), ("params", .obj [])]) (.obj []) rfl rfl rfl,
   claim10_malformed_call_is_err.2.2 sampleParse HelloWorldServer.handle_message
     "call" [] (.obj [("method", .str "tools/call")]) "Missing params"
     (by decide) rfl rfl⟩

end MCP
